import Mathlib

/-!
# The Node binding of the ABL tree-sitter grammar

A verification development for `src/bindings/node/binding.cc`.  The file holds
one function,

```
Napi::Object Init(Napi::Env env, Napi::Object exports) {
    exports.Set("name", Napi::String::New(env, "abl"));
    Napi::External<TSLanguage> language =
        Napi::External<TSLanguage>::New(env, tree_sitter_abl());
    exports.Set("language", language);
    return exports;
}
```

which is embedded below as a state-passing function.  The state holds the
JavaScript objects `Init` can reach, the native memory, and the log of every
call that leaves `binding.cc`.

`exports.Set` is a JavaScript assignment (`napi_set_named_property`), so the
objects carry what an assignment depends on: property attributes, accessors,
extensibility, inherited properties and proxies.  JavaScript code that an
assignment runs, and the entry point `tree_sitter_abl`, which `binding.cc`
only declares, are a parameter, `Host`.
-/

namespace AblBinding

/-! ## Data model -/

/-- A raw C pointer; `0` is `nullptr`.  `TSLanguage *` is such a pointer. -/
abbrev Ptr := Nat

/-- The class `Napi::Env`: a by-value wrapper of the raw `napi_env` handle the
host passes to the module.  The null handle is no environment; every other
handle stands for a live one. -/
structure Env where
  napi_env : Ptr
  deriving DecidableEq, Repr

/-- The class `Napi::Object`: a reference to a JavaScript object living in a
live environment of the host. -/
structure Object where
  ref : Nat
  deriving DecidableEq, Repr

/-- JavaScript values as far as the binding can produce or meet them.
`string` is what `Napi::String::New` builds, `external` what
`Napi::External<T>::New` builds: a wrapper that stores the data pointer. -/
inductive Value where
  | undefined
  | null
  | boolean (b : Bool)
  | number (n : Int)
  | string (s : String)
  | external (data : Ptr)
  | object (o : Object)
  deriving DecidableEq, Repr

/-- A property of a JavaScript object: a data property with its value and its
`writable` attribute, or an accessor property with its setter, if it has one
(a setter is named by a number; what it does is up to the host). -/
inductive Slot where
  | data (v : Value) (writable : Bool)
  | accessor (setter : Option Nat)
  deriving DecidableEq, Repr

/-- An ordinary object, or a proxy with its handler. -/
inductive Kind where
  | ordinary
  | proxy (handler : Nat)
  deriving DecidableEq, Repr

/-- The own properties of a JavaScript object, in insertion order. -/
abbrev Props := List (String × Slot)

/-- Own-property lookup. -/
def Props.get : Props → String → Option Slot
  | [], _ => none
  | (k, sl) :: ps, key => if k = key then some sl else Props.get ps key

/-- Writing a value into the property list: an existing key keeps its place
and takes the new value, a new key is appended as a writable data property. -/
def Props.set : Props → String → Value → Props
  | [], key, v => [(key, Slot.data v true)]
  | (k, sl) :: ps, key, v =>
    if k = key then (k, Slot.data v true) :: ps else (k, sl) :: Props.set ps key v

/-- The property names of an object. -/
def Props.keys (ps : Props) : List String := ps.map Prod.fst

/-- A JavaScript object: its kind, whether properties can be added, its own
properties, and what its prototype chain shows for a key it does not own. -/
structure Obj where
  kind : Kind
  extensible : Bool
  own : Props
  inherited : String → Option Slot

/-- What the assignment `obj[key] = v` comes to: the value is stored in an own
data property, or nothing is written, or JavaScript code runs (a setter, or
the handler of a proxy). -/
inductive SetAction where
  | store
  | ignore
  | call (f : Nat)
  deriving DecidableEq, Repr

/-- The JavaScript rule for an assignment to `key`.  A proxy hands the
assignment to its handler.  An own data property takes the value when it is
writable and rejects it when it is read-only; an own accessor runs its
setter, and rejects the value when it has none.  For a key the object does
not own the prototype chain decides in the same way, except that a writable
or missing inherited property makes a new own property, which needs an
extensible object. -/
def Obj.setAction (o : Obj) (key : String) : SetAction :=
  match o.kind with
  | .proxy h => .call h
  | .ordinary =>
    match o.own.get key with
    | some (.data _ true) => .store
    | some (.data _ false) => .ignore
    | some (.accessor (some f)) => .call f
    | some (.accessor none) => .ignore
    | none =>
      match o.inherited key with
      | some (.data _ false) => .ignore
      | some (.accessor (some f)) => .call f
      | some (.accessor none) => .ignore
      | _ => if o.extensible then .store else .ignore

/-- Whether an assignment to `key` runs JavaScript code. -/
def Obj.runsJs (o : Obj) (key : String) : Bool :=
  match o.setAction key with
  | .call _ => true
  | _ => false

/-- The object after the value is stored under `key`. -/
def Obj.store (o : Obj) (key : String) (v : Value) : Obj :=
  { o with own := o.own.set key v }

/-- The object after an assignment that runs no JavaScript code. -/
def Obj.assign (o : Obj) (key : String) (v : Value) : Obj :=
  match o.setAction key with
  | .store => o.store key v
  | _ => o

/-- The JavaScript heap: every object, by reference. -/
abbrev Heap := Nat → Obj

/-- A call that leaves `binding.cc`. -/
inductive Call where
  | String_New (env : Env) (s : String)
  | External_New (env : Env) (data : Ptr)
  | Object_Set (obj : Object) (key : String) (v : Value)
  | tree_sitter_abl
  deriving DecidableEq, Repr

/-- Whether a call goes to the external parsing engine (the others go to the
N-API). -/
def Call.isEngine : Call → Bool
  | .tree_sitter_abl => true
  | _ => false

/-- The state `Init` runs in: the JavaScript heap, the native memory (where the
grammar the handle points to lives), and the calls made so far, oldest
first. -/
structure State where
  heap : Heap
  memory : Ptr → Nat
  trace : List Call

/-- The calls into the parsing engine made so far. -/
def State.engineCalls (s : State) : List Call := s.trace.filter Call.isEngine

/-- The ways a call made by `Init` can fail to return.  `napi_invalid_arg` is
the status of the N-API for a call made with a null environment;
`pending_exception` is an exception thrown by JavaScript code that an
assignment ran; `entry_point` is a failure of `tree_sitter_abl` to yield a
handle. -/
inductive Failure (ε : Type) where
  | napi_invalid_arg
  | pending_exception (e : ε)
  | entry_point (e : ε)
  deriving DecidableEq, Repr

/-- What lies outside `binding.cc`.  `tree_sitter_abl n` is what the entry point
`extern "C" TSLanguage *tree_sitter_abl()` yields on its call number `n`
(counted from `0`); `js_set f obj key v` is the run of the setter or proxy
handler `f` for the assignment `obj[key] = v`: it may change the heap at will
and may throw. -/
structure Host (ε : Type) where
  tree_sitter_abl : Nat → Except ε Ptr
  js_set : Nat → Object → String → Value → Heap → Except ε Unit × Heap

/-- A computation of `binding.cc`: it ends with a value or with the failure of
a callee, and the state it leaves is kept in both cases. -/
abbrev M (ε α : Type) := State → Except (Failure ε) α × State

/-! ## The operations `Init` calls -/

/-- The check of the N-API on the environment a value is created in: the null
handle is refused. -/
def napi_check {ε : Type} (env : Env) : Except (Failure ε) Unit :=
  if env.napi_env = 0 then .error Failure.napi_invalid_arg else .ok ()

/-- The call `Napi::String::New(env, str)`: a JavaScript string with the given
contents. -/
def String_New {ε : Type} (env : Env) (str : String) : M ε Value :=
  fun s =>
    let s1 : State := { s with trace := s.trace ++ [Call.String_New env str] }
    match napi_check env with
    | .error e => (.error e, s1)
    | .ok _ => (.ok (Value.string str), s1)

/-- The call `Napi::External<TSLanguage>::New(env, data)`: an external value
that stores the pointer as it is; no finalizer is given. -/
def External_New {ε : Type} (env : Env) (data : Ptr) : M ε Value :=
  fun s =>
    let s1 : State := { s with trace := s.trace ++ [Call.External_New env data] }
    match napi_check env with
    | .error e => (.error e, s1)
    | .ok _ => (.ok (Value.external data), s1)

/-- The assignment `obj[key] = v` on the heap.  A rejected assignment writes
nothing and still reports success; an exception thrown by the code that runs
is the failure of the call. -/
def setProperty {ε : Type} (H : Host ε) (obj : Object) (key : String) (v : Value)
    (heap : Heap) : Except (Failure ε) Unit × Heap :=
  match (heap obj.ref).setAction key with
  | .store => (.ok (), Function.update heap obj.ref ((heap obj.ref).store key v))
  | .ignore => (.ok (), heap)
  | .call f =>
    match H.js_set f obj key v heap with
    | (.ok _, heap1) => (.ok (), heap1)
    | (.error e, heap1) => (.error (Failure.pending_exception e), heap1)

/-- The call `obj.Set(key, v)`. -/
def Object.Set {ε : Type} (H : Host ε) (obj : Object) (key : String) (v : Value) :
    M ε Unit :=
  fun s =>
    ((setProperty H obj key v s.heap).1,
      { heap := (setProperty H obj key v s.heap).2
        memory := s.memory
        trace := s.trace ++ [Call.Object_Set obj key v] })

/-- The value of the own data property `key` of an object, if it has one: what
the host finds under `key` on the record. -/
def Object.ownValue (obj : Object) (key : String) (s : State) : Option Value :=
  match (s.heap obj.ref).own.get key with
  | some (.data v _) => some v
  | _ => none

/-- The call `tree_sitter_abl()`. -/
def tree_sitter_abl {ε : Type} (H : Host ε) : M ε Ptr :=
  fun s =>
    let s1 : State := { s with trace := s.trace ++ [Call.tree_sitter_abl] }
    match H.tree_sitter_abl s.engineCalls.length with
    | .error e => (.error (Failure.entry_point e), s1)
    | .ok data => (.ok data, s1)

/-! ## `Init` -/

/-- The function `Napi::Object Init(Napi::Env env, Napi::Object exports)`. -/
def Init {ε : Type} (H : Host ε) (env : Env) (exports : Object) : M ε Object :=
  fun s0 =>
    -- exports.Set("name", Napi::String::New(env, "abl"));
    match String_New env "abl" s0 with
    | (.error e, s1) => (.error e, s1)
    | (.ok name, s1) =>
      match exports.Set H "name" name s1 with
      | (.error e, s2) => (.error e, s2)
      | (.ok _, s2) =>
        -- Napi::External<TSLanguage> language =
        --     Napi::External<TSLanguage>::New(env, tree_sitter_abl());
        match tree_sitter_abl H s2 with
        | (.error e, s3) => (.error e, s3)
        | (.ok data, s3) =>
          match External_New env data s3 with
          | (.error e, s4) => (.error e, s4)
          | (.ok language, s4) =>
            -- exports.Set("language", language);
            match exports.Set H "language" language s4 with
            | (.error e, s5) => (.error e, s5)
            | (.ok _, s5) =>
              -- return exports;
              (.ok exports, s5)

/-! ## Concrete hosts and states -/

/-- A host whose entry point always returns the pointer `p` and whose
JavaScript code does nothing. -/
def stdHost (p : Ptr) : Host String :=
  { tree_sitter_abl := fun _ => .ok p
    js_set := fun _ _ _ _ heap => (.ok (), heap) }

/-- A host whose entry point yields a failure instead of a handle. -/
def unlinkedHost : Host String :=
  { tree_sitter_abl := fun _ => .error "LinkResolutionFailure"
    js_set := fun _ _ _ _ heap => (.ok (), heap) }

/-- A host whose setters store `4` under `version` on the object assigned to. -/
def setterHost (p : Ptr) : Host String :=
  { tree_sitter_abl := fun _ => .ok p
    js_set := fun _ obj _ _ heap =>
      (.ok (), Function.update heap obj.ref ((heap obj.ref).store "version" (Value.number 4))) }

/-- A host whose setters throw. -/
def throwingHost (p : Ptr) : Host String :=
  { tree_sitter_abl := fun _ => .ok p
    js_set := fun _ _ _ _ heap => (.error "TypeError", heap) }

/-- An ordinary extensible object with the given own properties and nothing
inherited. -/
def plainObj (ps : Props) : Obj :=
  { kind := .ordinary, extensible := true, own := ps, inherited := fun _ => none }

/-- Every object is plain and empty, and no call has been made. -/
def emptyState : State :=
  { heap := fun _ => plainObj [], memory := fun _ => 0, trace := [] }

/-- Object `1` already has the writable properties `version` and `name`. -/
def busyState : State :=
  { heap := fun r =>
      if r = 1 then
        plainObj [("version", Slot.data (Value.number 3) true),
                  ("name", Slot.data (Value.string "old") true)]
      else plainObj []
    memory := fun _ => 0
    trace := [] }

/-- Object `1` is frozen, with the property `name`. -/
def frozenState : State :=
  { heap := fun r =>
      if r = 1 then
        { kind := .ordinary, extensible := false,
          own := [("name", Slot.data (Value.string "old") false)],
          inherited := fun _ => none }
      else plainObj []
    memory := fun _ => 0
    trace := [] }

/-- Object `1` has the data property `version` and a setter for `name`. -/
def setterState : State :=
  { heap := fun r =>
      if r = 1 then
        plainObj [("version", Slot.data (Value.number 3) true),
                  ("name", Slot.accessor (some 0))]
      else plainObj []
    memory := fun _ => 0
    trace := [] }

/-! ## The states a run of `Init` can leave -/

/-- The state a complete run of `Init` leaves when the two assignments run no
JavaScript code. -/
def doneState (env : Env) (exports : Object) (data : Ptr) (s : State) : State :=
  { heap := Function.update s.heap exports.ref
      (((s.heap exports.ref).assign "name" (Value.string "abl")).assign
        "language" (Value.external data))
    memory := s.memory
    trace := s.trace ++
      [Call.String_New env "abl",
       Call.Object_Set exports "name" (Value.string "abl"),
       Call.tree_sitter_abl,
       Call.External_New env data,
       Call.Object_Set exports "language" (Value.external data)] }

/-- The state `Init` leaves when the entry point does not return, the
assignment of `name` having run no JavaScript code. -/
def stuckState (env : Env) (exports : Object) (s : State) : State :=
  { heap := Function.update s.heap exports.ref
      ((s.heap exports.ref).assign "name" (Value.string "abl"))
    memory := s.memory
    trace := s.trace ++
      [Call.String_New env "abl",
       Call.Object_Set exports "name" (Value.string "abl"),
       Call.tree_sitter_abl] }

/-! ## Properties of the property lists -/

theorem Props.get_set_same (ps : Props) (key : String) (v : Value) :
    (ps.set key v).get key = some (Slot.data v true) := by
  induction ps with
  | nil => simp [Props.set, Props.get]
  | cons kv ps ih =>
    obtain ⟨k, w⟩ := kv
    by_cases h : k = key
    · simp [Props.set, Props.get, h]
    · simp [Props.set, Props.get, h, ih]

theorem Props.get_set_ne (ps : Props) (key key2 : String) (v : Value)
    (hne : key2 ≠ key) : (ps.set key v).get key2 = ps.get key2 := by
  induction ps with
  | nil =>
    have h : ¬ key = key2 := fun h => hne h.symm
    simp [Props.set, Props.get, h]
  | cons kv ps ih =>
    obtain ⟨k, w⟩ := kv
    by_cases h : k = key
    · have h2 : ¬ key = key2 := fun h => hne h.symm
      simp [Props.set, Props.get, h, h2]
    · by_cases h3 : k = key2
      · subst h3
        simp [Props.set, Props.get, h]
      · simp [Props.set, Props.get, h, h3, ih]

theorem Props.mem_keys_set (ps : Props) (key key2 : String) (v : Value) :
    key2 ∈ (ps.set key v).keys ↔ key2 ∈ ps.keys ∨ key2 = key := by
  induction ps with
  | nil => simp [Props.set, Props.keys]
  | cons kv ps ih =>
    obtain ⟨k, w⟩ := kv
    by_cases h : k = key
    · subst h
      simp [Props.set, Props.keys]
      tauto
    · simp only [Props.keys] at ih
      simp [Props.set, Props.keys, h, ih]
      tauto

/-! ## Properties of an assignment -/

theorem Obj.own_assign_ne (o : Obj) (key key2 : String) (v : Value) (hne : key2 ≠ key) :
    (o.assign key v).own.get key2 = o.own.get key2 := by
  unfold Obj.assign
  cases o.setAction key <;> simp [Obj.store, Props.get_set_ne _ _ _ _ hne]

theorem Obj.setAction_assign_ne (o : Obj) (key key2 : String) (v : Value)
    (hne : key2 ≠ key) : (o.assign key v).setAction key2 = o.setAction key2 := by
  have hown := Obj.own_assign_ne o key key2 v hne
  have hk : (o.assign key v).kind = o.kind := by
    unfold Obj.assign
    cases o.setAction key <;> rfl
  have he : (o.assign key v).extensible = o.extensible := by
    unfold Obj.assign
    cases o.setAction key <;> rfl
  have hi : (o.assign key v).inherited = o.inherited := by
    unfold Obj.assign
    cases o.setAction key <;> rfl
  simp only [Obj.setAction, hown, hk, he, hi]

theorem Obj.runsJs_assign_ne (o : Obj) (key key2 : String) (v : Value)
    (hne : key2 ≠ key) : (o.assign key v).runsJs key2 = o.runsJs key2 := by
  simp only [Obj.runsJs, Obj.setAction_assign_ne o key key2 v hne]

theorem Obj.runsJs_of_store (o : Obj) (key : String) (h : o.setAction key = .store) :
    o.runsJs key = false := by
  simp [Obj.runsJs, h]

theorem Obj.assign_of_store (o : Obj) (key : String) (v : Value)
    (h : o.setAction key = .store) : o.assign key v = o.store key v := by
  simp [Obj.assign, h]

theorem setProperty_noJs {ε : Type} (H : Host ε) (obj : Object) (key : String)
    (v : Value) (heap : Heap) (h : (heap obj.ref).runsJs key = false) :
    setProperty H obj key v heap =
      (.ok (), Function.update heap obj.ref ((heap obj.ref).assign key v)) := by
  unfold Obj.runsJs at h
  unfold setProperty Obj.assign
  cases hact : (heap obj.ref).setAction key with
  | store => rfl
  | ignore => simp
  | call f => simp [hact] at h

/-! ## What a run of `Init` does -/

theorem napi_check_ok {ε : Type} (env : Env) (henv : env.napi_env ≠ 0) :
    (napi_check env : Except (Failure ε) Unit) = .ok () := by
  simp [napi_check, henv]

theorem Init_run_null {ε : Type} (H : Host ε) (env : Env) (exports : Object)
    (s : State) (henv : env.napi_env = 0) :
    Init H env exports s =
      (.error Failure.napi_invalid_arg,
        { s with trace := s.trace ++ [Call.String_New env "abl"] }) := by
  simp [Init, String_New, napi_check, henv]

theorem Init_run_ok {ε : Type} (H : Host ε) (env : Env) (exports : Object)
    (s : State) (data : Ptr) (henv : env.napi_env ≠ 0)
    (hname : (s.heap exports.ref).runsJs "name" = false)
    (hlang : (s.heap exports.ref).runsJs "language" = false)
    (ht : H.tree_sitter_abl s.engineCalls.length = .ok data) :
    Init H env exports s = (.ok exports, doneState env exports data s) := by
  have hne : ("language" : String) ≠ "name" := by decide
  have hlang2 : ((s.heap exports.ref).assign "name" (Value.string "abl")).runsJs
      "language" = false := by
    rw [Obj.runsJs_assign_ne _ _ _ _ hne]
    exact hlang
  have hs1 := setProperty_noJs H exports "name" (Value.string "abl") s.heap hname
  have hs2 := setProperty_noJs H exports "language" (Value.external data)
    (Function.update s.heap exports.ref
      ((s.heap exports.ref).assign "name" (Value.string "abl")))
    (by simpa using hlang2)
  simp only [Function.update_same, Function.update_idem] at hs2
  simp [Init, String_New, External_New, tree_sitter_abl, Object.Set,
    napi_check_ok env henv, hs1, hs2, ht,
    State.engineCalls, List.filter_append, Call.isEngine, doneState] at ht ⊢

theorem Init_run_stuck {ε : Type} (H : Host ε) (env : Env) (exports : Object)
    (s : State) (e : ε) (henv : env.napi_env ≠ 0)
    (hname : (s.heap exports.ref).runsJs "name" = false)
    (ht : H.tree_sitter_abl s.engineCalls.length = .error e) :
    Init H env exports s = (.error (Failure.entry_point e), stuckState env exports s) := by
  have hs1 := setProperty_noJs H exports "name" (Value.string "abl") s.heap hname
  simp [Init, String_New, tree_sitter_abl, Object.Set,
    napi_check_ok env henv, hs1,
    State.engineCalls, List.filter_append, Call.isEngine, stuckState] at ht ⊢
  simp [ht]

theorem Init_run_calls {ε : Type} (H : Host ε) (env : Env) (exports : Object)
    (s : State) (henv : env.napi_env ≠ 0)
    (hset : (setProperty H exports "name" (Value.string "abl") s.heap).1 = .ok ()) :
    (Init H env exports s).2.memory = s.memory ∧
      (∀ e, H.tree_sitter_abl s.engineCalls.length = .error e →
        (Init H env exports s).2.trace = s.trace ++
          [Call.String_New env "abl",
           Call.Object_Set exports "name" (Value.string "abl"),
           Call.tree_sitter_abl]) ∧
      (∀ data, H.tree_sitter_abl s.engineCalls.length = .ok data →
        (Init H env exports s).2.trace = s.trace ++
          [Call.String_New env "abl",
           Call.Object_Set exports "name" (Value.string "abl"),
           Call.tree_sitter_abl,
           Call.External_New env data,
           Call.Object_Set exports "language" (Value.external data)]) := by
  cases ht : H.tree_sitter_abl s.engineCalls.length with
  | error e =>
    have ht2 : H.tree_sitter_abl (List.filter Call.isEngine s.trace).length = .error e := ht
    simp [Init, String_New, tree_sitter_abl, Object.Set, napi_check_ok env henv,
      hset, ht2, State.engineCalls, List.filter_append, Call.isEngine]
  | ok data =>
    have ht2 : H.tree_sitter_abl (List.filter Call.isEngine s.trace).length = .ok data := ht
    cases hl : (setProperty H exports "language" (Value.external data)
        (setProperty H exports "name" (Value.string "abl") s.heap).2).1 with
    | error e2 =>
      simp [Init, String_New, External_New, tree_sitter_abl, Object.Set,
        napi_check_ok env henv, hset, ht2, hl, State.engineCalls, List.filter_append,
        Call.isEngine]
    | ok u =>
      simp [Init, String_New, External_New, tree_sitter_abl, Object.Set,
        napi_check_ok env henv, hset, ht2, hl, State.engineCalls, List.filter_append,
        Call.isEngine]

theorem doneState_name (env : Env) (exports : Object) (data : Ptr) (s : State)
    (hname : (s.heap exports.ref).setAction "name" = .store) :
    exports.ownValue "name" (doneState env exports data s) = some (Value.string "abl") := by
  have hne : ("name" : String) ≠ "language" := by decide
  simp [Object.ownValue, doneState, Obj.own_assign_ne _ _ _ _ hne,
    Obj.assign_of_store _ _ _ hname, Obj.store, Props.get_set_same]

theorem doneState_language (env : Env) (exports : Object) (data : Ptr) (s : State)
    (hlang : (s.heap exports.ref).setAction "language" = .store) :
    exports.ownValue "language" (doneState env exports data s) =
      some (Value.external data) := by
  have hne : ("language" : String) ≠ "name" := by decide
  have h2 : ((s.heap exports.ref).assign "name" (Value.string "abl")).setAction
      "language" = .store := by
    rw [Obj.setAction_assign_ne _ _ _ _ hne]
    exact hlang
  simp [Object.ownValue, doneState, Obj.assign_of_store _ _ _ h2, Obj.store,
    Props.get_set_same]

theorem doneState_heap_other (env : Env) (exports : Object) (data : Ptr) (s : State)
    (o : Object) (h : o ≠ exports) :
    (doneState env exports data s).heap o.ref = s.heap o.ref := by
  have hr : o.ref ≠ exports.ref := by
    intro hr
    apply h
    cases o
    cases exports
    simp_all
  simp [doneState, Function.update_noteq hr]

theorem doneState_keys (env : Env) (exports : Object) (data : Ptr) (s : State)
    (hname : (s.heap exports.ref).setAction "name" = .store)
    (hlang : (s.heap exports.ref).setAction "language" = .store) :
    ((doneState env exports data s).heap exports.ref).own =
      ((s.heap exports.ref).own.set "name" (Value.string "abl")).set
        "language" (Value.external data) := by
  have hne : ("language" : String) ≠ "name" := by decide
  have h2 : ((s.heap exports.ref).assign "name" (Value.string "abl")).setAction
      "language" = .store := by
    rw [Obj.setAction_assign_ne _ _ _ _ hne]
    exact hlang
  simp only [doneState, Function.update_same]
  rw [Obj.assign_of_store _ _ _ h2, Obj.assign_of_store _ _ _ hname]
  rfl

/-! ## The claims -/

/-- Claim C1, as stated, fails: an exports object that carries a read-only `name`
comes back from `Init` with that `name`, not with `abl`. -/
theorem Init_keeps_read_only_name :
    (Init (stdHost 7) ⟨5⟩ ⟨1⟩ frozenState).1 = .ok ⟨1⟩ ∧
      Object.ownValue ⟨1⟩ "name" (Init (stdHost 7) ⟨5⟩ ⟨1⟩ frozenState).2 =
        some (Value.string "old") := by
  refine ⟨rfl, rfl⟩

/-- Claim C1, amended.  On every non-null environment, with every exports object
on which the assignment of `name` stores the value (whatever `name` it held
before) and the assignment of `language` runs no JavaScript code, and whatever
pointer the entry point returns, `Init` returns a record whose `name` property
is the string `abl`. -/
theorem Init_name_is_abl {ε : Type} (H : Host ε) (env : Env) (exports : Object)
    (s : State) (data : Ptr) (henv : env.napi_env ≠ 0)
    (hname : (s.heap exports.ref).setAction "name" = .store)
    (hlang : (s.heap exports.ref).runsJs "language" = false)
    (ht : H.tree_sitter_abl s.engineCalls.length = .ok data) :
    ∃ r, (Init H env exports s).1 = .ok r ∧
      r.ownValue "name" (Init H env exports s).2 = some (Value.string "abl") := by
  have hrun := Init_run_ok H env exports s data henv
    (Obj.runsJs_of_store _ _ hname) hlang ht
  refine ⟨exports, ?_, ?_⟩
  · rw [hrun]
  · rw [hrun]
    exact doneState_name env exports data s hname

theorem Init_name_is_abl_witness :
    ∃ r, (Init (stdHost 7) ⟨5⟩ ⟨1⟩ busyState).1 = .ok r ∧
      r.ownValue "name" (Init (stdHost 7) ⟨5⟩ ⟨1⟩ busyState).2 =
        some (Value.string "abl") :=
  Init_name_is_abl (stdHost 7) ⟨5⟩ ⟨1⟩ busyState 7 (by decide) rfl rfl rfl

/-- Claim C2, as stated, fails: a frozen exports object comes back from `Init`
without a `language` property. -/
theorem Init_frozen_no_language :
    (Init (stdHost 7) ⟨5⟩ ⟨1⟩ frozenState).1 = .ok ⟨1⟩ ∧
      Props.get ((Init (stdHost 7) ⟨5⟩ ⟨1⟩ frozenState).2.heap 1).own "language" = none ∧
      Object.ownValue ⟨1⟩ "language" (Init (stdHost 7) ⟨5⟩ ⟨1⟩ frozenState).2 = none := by
  refine ⟨rfl, rfl, rfl⟩

/-- Claim C2, amended.  On every non-null environment, with every exports object
on which the assignment of `language` stores the value and the assignment of
`name` runs no JavaScript code, the `language` property of the record `Init`
returns is an external value (so neither `null` nor `undefined`) that wraps
exactly the pointer the entry point returned, the null pointer included. -/
theorem Init_language_wraps_handle {ε : Type} (H : Host ε) (env : Env)
    (exports : Object) (s : State) (data : Ptr) (henv : env.napi_env ≠ 0)
    (hname : (s.heap exports.ref).runsJs "name" = false)
    (hlang : (s.heap exports.ref).setAction "language" = .store)
    (ht : H.tree_sitter_abl s.engineCalls.length = .ok data) :
    ∃ r v, (Init H env exports s).1 = .ok r ∧
      r.ownValue "language" (Init H env exports s).2 = some v ∧
      v = Value.external data ∧ v ≠ Value.null ∧ v ≠ Value.undefined := by
  have hrun := Init_run_ok H env exports s data henv hname
    (Obj.runsJs_of_store _ _ hlang) ht
  refine ⟨exports, Value.external data, ?_, ?_, rfl, ?_, ?_⟩
  · rw [hrun]
  · rw [hrun]
    exact doneState_language env exports data s hlang
  · simp
  · simp

theorem Init_language_wraps_handle_witness :
    ∃ r v, (Init (stdHost 0) ⟨5⟩ ⟨1⟩ emptyState).1 = .ok r ∧
      r.ownValue "language" (Init (stdHost 0) ⟨5⟩ ⟨1⟩ emptyState).2 = some v ∧
      v = Value.external 0 ∧ v ≠ Value.null ∧ v ≠ Value.undefined :=
  Init_language_wraps_handle (stdHost 0) ⟨5⟩ ⟨1⟩ emptyState 0 (by decide) rfl rfl rfl

/-- Claim C3, as stated, fails: an exports object that already has a `version`
property comes back with three fields, not two. -/
theorem Init_keeps_earlier_fields :
    (Init (stdHost 7) ⟨5⟩ ⟨1⟩ busyState).1 = .ok ⟨1⟩ ∧
      Props.keys ((Init (stdHost 7) ⟨5⟩ ⟨1⟩ busyState).2.heap 1).own =
        ["version", "name", "language"] ∧
      Object.ownValue ⟨1⟩ "version" (Init (stdHost 7) ⟨5⟩ ⟨1⟩ busyState).2 =
        some (Value.number 3) := by
  refine ⟨rfl, rfl, rfl⟩

/-- Claim C3, amended.  On a non-null environment and with an exports object on
which the assignments of `name` and of `language` store the value, the record
`Init` returns has the fields `name` and `language` together with the fields
the exports object had before the call, and no others; from such an exports
object without own properties it has exactly the two fields `name` and
`language`. -/
theorem Init_fields {ε : Type} (H : Host ε) (env : Env) (exports : Object)
    (s : State) (data : Ptr) (henv : env.napi_env ≠ 0)
    (hname : (s.heap exports.ref).setAction "name" = .store)
    (hlang : (s.heap exports.ref).setAction "language" = .store)
    (ht : H.tree_sitter_abl s.engineCalls.length = .ok data) :
    (Init H env exports s).1 = .ok exports ∧
      (∀ key, key ∈ Props.keys ((Init H env exports s).2.heap exports.ref).own ↔
        key ∈ Props.keys (s.heap exports.ref).own ∨ key = "name" ∨ key = "language") ∧
      ((s.heap exports.ref).own = [] →
        Props.keys ((Init H env exports s).2.heap exports.ref).own =
          ["name", "language"]) := by
  rw [Init_run_ok H env exports s data henv (Obj.runsJs_of_store _ _ hname)
    (Obj.runsJs_of_store _ _ hlang) ht]
  refine ⟨rfl, ?_, ?_⟩
  · intro key
    simp only [doneState_keys env exports data s hname hlang]
    simp [Props.mem_keys_set, or_assoc]
  · intro hempty
    simp only [doneState_keys env exports data s hname hlang]
    simp [hempty, Props.set, Props.keys]

theorem Init_fields_witness :
    (Init (stdHost 7) ⟨5⟩ ⟨1⟩ emptyState).1 = .ok ⟨1⟩ ∧
      (∀ key, key ∈ Props.keys ((Init (stdHost 7) ⟨5⟩ ⟨1⟩ emptyState).2.heap 1).own ↔
        key ∈ Props.keys (emptyState.heap 1).own ∨ key = "name" ∨ key = "language") ∧
      ((emptyState.heap 1).own = [] →
        Props.keys ((Init (stdHost 7) ⟨5⟩ ⟨1⟩ emptyState).2.heap 1).own =
          ["name", "language"]) :=
  Init_fields (stdHost 7) ⟨5⟩ ⟨1⟩ emptyState 7 (by decide) rfl rfl rfl

/-- Claim C4.  With a null environment `Init` fails, with the failure of the N-API
for an invalid environment, at its first call: no property of the exports
object (or of any object) is set and `tree_sitter_abl` is not called. -/
theorem Init_null_env {ε : Type} (H : Host ε) (env : Env) (exports : Object)
    (s : State) (henv : env.napi_env = 0) :
    (Init H env exports s).1 = .error Failure.napi_invalid_arg ∧
      (Init H env exports s).2.heap = s.heap ∧
      (Init H env exports s).2.engineCalls = s.engineCalls ∧
      (Init H env exports s).2.trace = s.trace ++ [Call.String_New env "abl"] := by
  rw [Init_run_null H env exports s henv]
  simp [State.engineCalls, List.filter_append, Call.isEngine]

theorem Init_null_env_witness :
    (Init (stdHost 7) ⟨0⟩ ⟨1⟩ busyState).1 = .error Failure.napi_invalid_arg ∧
      (Init (stdHost 7) ⟨0⟩ ⟨1⟩ busyState).2.heap = busyState.heap ∧
      (Init (stdHost 7) ⟨0⟩ ⟨1⟩ busyState).2.engineCalls = busyState.engineCalls ∧
      (Init (stdHost 7) ⟨0⟩ ⟨1⟩ busyState).2.trace =
        busyState.trace ++ [Call.String_New ⟨0⟩ "abl"] :=
  Init_null_env (stdHost 7) ⟨0⟩ ⟨1⟩ busyState rfl

/-- Claim C5, as stated, fails: with the same entry point, of two invocations the
one on a frozen exports object returns a record with `name` equal to `old` and
no `language`, the other a record with `name` equal to `abl`. -/
theorem Init_twice_disagree :
    (Init (stdHost 7) ⟨5⟩ ⟨1⟩ frozenState).1 = .ok ⟨1⟩ ∧
      (Init (stdHost 7) ⟨6⟩ ⟨2⟩ frozenState).1 = .ok ⟨2⟩ ∧
      Object.ownValue ⟨1⟩ "name" (Init (stdHost 7) ⟨5⟩ ⟨1⟩ frozenState).2 =
        some (Value.string "old") ∧
      Object.ownValue ⟨2⟩ "name" (Init (stdHost 7) ⟨6⟩ ⟨2⟩ frozenState).2 =
        some (Value.string "abl") ∧
      Object.ownValue ⟨1⟩ "language" (Init (stdHost 7) ⟨5⟩ ⟨1⟩ frozenState).2 = none ∧
      Object.ownValue ⟨2⟩ "language" (Init (stdHost 7) ⟨6⟩ ⟨2⟩ frozenState).2 =
        some (Value.external 7) := by
  refine ⟨rfl, rfl, rfl, rfl, rfl, rfl⟩

/-- Claim C5, amended.  When the entry point returns the same pointer on every
call, two invocations of `Init`, on any two non-null environments, from any
two states and with any two exports objects on which the assignments of `name`
and of `language` store the value, both return their exports object with
`name` equal to `abl` and with a `language` wrapper of that same pointer; when
the two exports objects are distinct the records are independent: the second
invocation, run after the first, leaves the first record as it was. -/
theorem Init_twice_agree {ε : Type} (H : Host ε) (env1 env2 : Env)
    (exports1 exports2 : Object) (s1 s2 : State) (data : Ptr)
    (hsame : ∀ n, H.tree_sitter_abl n = .ok data)
    (henv1 : env1.napi_env ≠ 0) (henv2 : env2.napi_env ≠ 0)
    (hname1 : (s1.heap exports1.ref).setAction "name" = .store)
    (hlang1 : (s1.heap exports1.ref).setAction "language" = .store)
    (hname2 : (s2.heap exports2.ref).setAction "name" = .store)
    (hlang2 : (s2.heap exports2.ref).setAction "language" = .store) :
    (Init H env1 exports1 s1).1 = .ok exports1 ∧
      (Init H env2 exports2 s2).1 = .ok exports2 ∧
      exports1.ownValue "name" (Init H env1 exports1 s1).2 = some (Value.string "abl") ∧
      exports2.ownValue "name" (Init H env2 exports2 s2).2 = some (Value.string "abl") ∧
      exports1.ownValue "language" (Init H env1 exports1 s1).2 =
        some (Value.external data) ∧
      exports2.ownValue "language" (Init H env2 exports2 s2).2 =
        some (Value.external data) ∧
      (exports1 ≠ exports2 →
        (s1.heap exports2.ref).runsJs "name" = false →
        (s1.heap exports2.ref).runsJs "language" = false →
        (Init H env2 exports2 (Init H env1 exports1 s1).2).1 = .ok exports2 ∧
        (Init H env2 exports2 (Init H env1 exports1 s1).2).2.heap exports1.ref =
          (Init H env1 exports1 s1).2.heap exports1.ref) := by
  have hrun1 := Init_run_ok H env1 exports1 s1 data henv1
    (Obj.runsJs_of_store _ _ hname1) (Obj.runsJs_of_store _ _ hlang1) (hsame _)
  have hrun2 := Init_run_ok H env2 exports2 s2 data henv2
    (Obj.runsJs_of_store _ _ hname2) (Obj.runsJs_of_store _ _ hlang2) (hsame _)
  rw [hrun1, hrun2]
  refine ⟨rfl, rfl, doneState_name _ _ _ _ hname1, doneState_name _ _ _ _ hname2,
    doneState_language _ _ _ _ hlang1, doneState_language _ _ _ _ hlang2, ?_⟩
  intro hne hn hl
  have hsym : exports2 ≠ exports1 := fun h => hne h.symm
  have hobj := doneState_heap_other env1 exports1 data s1 exports2 hsym
  have hrun3 := Init_run_ok H env2 exports2 (doneState env1 exports1 data s1) data henv2
    (by rw [hobj]; exact hn) (by rw [hobj]; exact hl) (hsame _)
  rw [hrun3]
  exact ⟨rfl, doneState_heap_other env2 exports2 data _ exports1 hne⟩

theorem Init_twice_agree_witness :
    (Init (stdHost 7) ⟨5⟩ ⟨1⟩ busyState).1 = .ok ⟨1⟩ ∧
      (Init (stdHost 7) ⟨6⟩ ⟨2⟩ emptyState).1 = .ok ⟨2⟩ ∧
      Object.ownValue ⟨1⟩ "name" (Init (stdHost 7) ⟨5⟩ ⟨1⟩ busyState).2 =
        some (Value.string "abl") ∧
      Object.ownValue ⟨2⟩ "name" (Init (stdHost 7) ⟨6⟩ ⟨2⟩ emptyState).2 =
        some (Value.string "abl") ∧
      Object.ownValue ⟨1⟩ "language" (Init (stdHost 7) ⟨5⟩ ⟨1⟩ busyState).2 =
        some (Value.external 7) ∧
      Object.ownValue ⟨2⟩ "language" (Init (stdHost 7) ⟨6⟩ ⟨2⟩ emptyState).2 =
        some (Value.external 7) ∧
      ((⟨1⟩ : Object) ≠ ⟨2⟩ →
        (busyState.heap 2).runsJs "name" = false →
        (busyState.heap 2).runsJs "language" = false →
        (Init (stdHost 7) ⟨6⟩ ⟨2⟩ (Init (stdHost 7) ⟨5⟩ ⟨1⟩ busyState).2).1 = .ok ⟨2⟩ ∧
        (Init (stdHost 7) ⟨6⟩ ⟨2⟩ (Init (stdHost 7) ⟨5⟩ ⟨1⟩ busyState).2).2.heap 1 =
          (Init (stdHost 7) ⟨5⟩ ⟨1⟩ busyState).2.heap 1) :=
  Init_twice_agree (stdHost 7) ⟨5⟩ ⟨6⟩ ⟨1⟩ ⟨2⟩ busyState emptyState 7
    (fun _ => rfl) (by decide) (by decide) rfl rfl rfl rfl

/-- Claim C6, as stated, fails: when the entry point yields a failure, `Init`
fails with it, but `name` is already set on the exports object. -/
theorem Init_unlinked_leaves_name :
    (Init unlinkedHost ⟨5⟩ ⟨1⟩ emptyState).1 =
        .error (Failure.entry_point "LinkResolutionFailure") ∧
      Object.ownValue ⟨1⟩ "name" emptyState = none ∧
      Object.ownValue ⟨1⟩ "name" (Init unlinkedHost ⟨5⟩ ⟨1⟩ emptyState).2 =
        some (Value.string "abl") ∧
      Object.ownValue ⟨1⟩ "language" (Init unlinkedHost ⟨5⟩ ⟨1⟩ emptyState).2 = none := by
  refine ⟨rfl, rfl, rfl, rfl⟩

/-- Claim C6, amended.  When the entry point yields a failure instead of a
handle, on a non-null environment and with an exports object on which the
assignment of `name` stores the value, `Init` fails with that failure; it
creates no external wrapper and does not set `language`, which stays as it
was, but it has already set `name` to `abl` on the exports object. -/
theorem Init_entry_point_failure {ε : Type} (H : Host ε) (env : Env)
    (exports : Object) (s : State) (e : ε) (henv : env.napi_env ≠ 0)
    (hname : (s.heap exports.ref).setAction "name" = .store)
    (ht : H.tree_sitter_abl s.engineCalls.length = .error e) :
    (Init H env exports s).1 = .error (Failure.entry_point e) ∧
      exports.ownValue "name" (Init H env exports s).2 = some (Value.string "abl") ∧
      ((Init H env exports s).2.heap exports.ref).own.get "language" =
        (s.heap exports.ref).own.get "language" ∧
      (Init H env exports s).2.trace = s.trace ++
        [Call.String_New env "abl",
         Call.Object_Set exports "name" (Value.string "abl"),
         Call.tree_sitter_abl] := by
  rw [Init_run_stuck H env exports s e henv (Obj.runsJs_of_store _ _ hname) ht]
  have hne : ("language" : String) ≠ "name" := by decide
  simp [stuckState, Object.ownValue, Props.get_set_ne _ _ _ _ hne,
    Obj.assign_of_store _ _ _ hname, Obj.store, Props.get_set_same]

theorem Init_entry_point_failure_witness :
    (Init unlinkedHost ⟨5⟩ ⟨1⟩ busyState).1 =
        .error (Failure.entry_point "LinkResolutionFailure") ∧
      Object.ownValue ⟨1⟩ "name" (Init unlinkedHost ⟨5⟩ ⟨1⟩ busyState).2 =
        some (Value.string "abl") ∧
      ((Init unlinkedHost ⟨5⟩ ⟨1⟩ busyState).2.heap 1).own.get "language" =
        (busyState.heap 1).own.get "language" ∧
      (Init unlinkedHost ⟨5⟩ ⟨1⟩ busyState).2.trace = busyState.trace ++
        [Call.String_New ⟨5⟩ "abl",
         Call.Object_Set ⟨1⟩ "name" (Value.string "abl"),
         Call.tree_sitter_abl] :=
  Init_entry_point_failure unlinkedHost ⟨5⟩ ⟨1⟩ busyState "LinkResolutionFailure"
    (by decide) rfl rfl

/-- Claim C7, as stated, fails: an invocation of `Init` with a null environment
fails before the entry point is reached and calls it not once but never; so
does an invocation in which the setter of `name` throws. -/
theorem Init_without_entry_point_call :
    (Init (stdHost 7) ⟨0⟩ ⟨1⟩ emptyState).1 = .error Failure.napi_invalid_arg ∧
      (Init (stdHost 7) ⟨0⟩ ⟨1⟩ emptyState).2.engineCalls = [] ∧
      (Init (throwingHost 7) ⟨5⟩ ⟨1⟩ setterState).1 =
        .error (Failure.pending_exception "TypeError") ∧
      (Init (throwingHost 7) ⟨5⟩ ⟨1⟩ setterState).2.engineCalls = [] := by
  refine ⟨rfl, rfl, rfl, rfl⟩

/-- Claim C7, amended.  An invocation of `Init` on a non-null environment in
which the assignment of `name` returns makes exactly one call into the parsing
engine, the argument-less call `tree_sitter_abl()`, and leaves the native
memory, the grammar behind the handle included, as it was; when that call
returns, the calls that leave `Init` are exactly five, the other four going
to the N-API, and the pointer is only handed to `External::New`. -/
theorem Init_calls_entry_point_once {ε : Type} (H : Host ε) (env : Env)
    (exports : Object) (s : State) (henv : env.napi_env ≠ 0)
    (hset : (setProperty H exports "name" (Value.string "abl") s.heap).1 = .ok ()) :
    (Init H env exports s).2.engineCalls = s.engineCalls ++ [Call.tree_sitter_abl] ∧
      (Init H env exports s).2.memory = s.memory ∧
      (∀ data, H.tree_sitter_abl s.engineCalls.length = .ok data →
        (Init H env exports s).2.trace = s.trace ++
          [Call.String_New env "abl",
           Call.Object_Set exports "name" (Value.string "abl"),
           Call.tree_sitter_abl,
           Call.External_New env data,
           Call.Object_Set exports "language" (Value.external data)]) := by
  obtain ⟨hmem, herr, hok⟩ := Init_run_calls H env exports s henv hset
  refine ⟨?_, hmem, hok⟩
  cases ht : H.tree_sitter_abl s.engineCalls.length with
  | error e =>
    simp [State.engineCalls, herr e ht, List.filter_append, Call.isEngine]
  | ok data =>
    simp [State.engineCalls, hok data ht, List.filter_append, Call.isEngine]

theorem Init_calls_entry_point_once_witness :
    (Init (setterHost 7) ⟨5⟩ ⟨1⟩ setterState).2.engineCalls =
        setterState.engineCalls ++ [Call.tree_sitter_abl] ∧
      (Init (setterHost 7) ⟨5⟩ ⟨1⟩ setterState).2.memory = setterState.memory ∧
      (∀ data, (setterHost 7).tree_sitter_abl setterState.engineCalls.length = .ok data →
        (Init (setterHost 7) ⟨5⟩ ⟨1⟩ setterState).2.trace = setterState.trace ++
          [Call.String_New ⟨5⟩ "abl",
           Call.Object_Set ⟨1⟩ "name" (Value.string "abl"),
           Call.tree_sitter_abl,
           Call.External_New ⟨5⟩ data,
           Call.Object_Set ⟨1⟩ "language" (Value.external data)]) :=
  Init_calls_entry_point_once (setterHost 7) ⟨5⟩ ⟨1⟩ setterState (by decide) rfl

end AblBinding
